import Mathlib

/-!
Shallow embedding of the draft-coordination core of `server.js` (a real-time
snake-draft server).  Mutable global state (`draftState`, `chatMessages`) is
modelled by explicit state passing; each socket handler becomes a function
returning the new state together with the error (if any) it emitted to the
acting connection.  Sources of nondeterminism in the code — randomly generated
ids, `Date.now()` timestamps and the random shuffle inside
`generateSnakeDraftOrder` — are passed in as explicit parameters.
-/

namespace PlayoffDraft

/-- An item in the player pool (`players.json` entries: id, name, team, position). -/
structure Player where
  id : String
  name : String
  team : String
  position : String
deriving DecidableEq

/-- A team's roster (`server.js:295-300`): four category slots, each an ordered list. -/
structure Roster where
  QB : List Player
  RB : List Player
  WR_TE : List Player
  K : List Player
deriving DecidableEq

/-- A participant (team), `server.js:291-301`.  `socketId = none` models a null
(disconnected) socket binding. -/
structure Team where
  id : String
  name : String
  socketId : Option String
  roster : Roster
deriving DecidableEq

/-- A spectator (watcher), `server.js:340-344`. -/
structure Watcher where
  id : String
  name : String
  socketId : Option String
deriving DecidableEq

/-- Draft phase (`server.js:35`). -/
inductive Phase where
  | setup
  | drafting
  | complete
deriving DecidableEq

/-- A recorded pick (`server.js:433-438`). -/
structure Pick where
  teamId : String
  playerId : String
  pickNumber : Nat
  timestamp : Nat
deriving DecidableEq

/-- The global `draftState` object (`server.js:34-43`).  The JS `Set`
`draftedPlayerIds` is modelled as a duplicate-free list. -/
structure DraftState where
  phase : Phase
  teams : List Team
  watchers : List Watcher
  draftOrder : List String
  currentPickIndex : Nat
  picks : List Pick
  draftedPlayerIds : List String
  paused : Bool
deriving DecidableEq

/-- A chat message (`server.js:490-496`). -/
structure ChatMsg where
  id : String
  teamId : String
  teamName : String
  message : String
  timestamp : Nat
deriving DecidableEq

/-- The whole mutable server state: `draftState` plus the separate
`chatMessages` buffer (`server.js:46`). -/
structure ServerState where
  draft : DraftState
  chatMessages : List ChatMsg
deriving DecidableEq

/-- The distinct user-facing failure reasons emitted via `socket.emit('error', ...)`. -/
inductive Err where
  | EmptyName
  | AlreadyStarted
  | Full
  | NameTaken
  | TooFewParticipants
  | NotDrafting
  | Paused
  | NotRegistered
  | NotYourTurn
  | UnknownItem
  | AlreadyDrafted
  | SlotFull
  | Unauthorized
  | NotPaused
  | PickNotFound
  | InvalidPickData
  | NotJoinedChat
deriving DecidableEq

/-- JS `String.prototype.trim()`: strip leading and trailing whitespace.
Embedded over the character list so that concrete inputs evaluate. -/
def jsTrim (s : String) : String :=
  String.mk (((s.data.dropWhile Char.isWhitespace).reverse.dropWhile
    Char.isWhitespace).reverse)

/-- JS `String.prototype.toLowerCase()`, embedded over the character list. -/
def jsToLower (s : String) : String :=
  String.mk (s.data.map Char.toLower)

/-- `findTeamBySocketId` (`server.js:54-56`). -/
def findTeamBySocketId (s : DraftState) (sid : String) : Option Team :=
  s.teams.find? (fun t => t.socketId == some sid)

/-- `findTeamById` (`server.js:59-61`). -/
def findTeamById (s : DraftState) (teamId : String) : Option Team :=
  s.teams.find? (fun t => t.id == teamId)

/-- `findTeamByName` (`server.js:64-66`), case-insensitive. -/
def findTeamByName (s : DraftState) (name : String) : Option Team :=
  s.teams.find? (fun t => jsToLower t.name == jsToLower name)

/-- `findWatcherBySocketId` (`server.js:69-71`). -/
def findWatcherBySocketId (s : DraftState) (sid : String) : Option Watcher :=
  s.watchers.find? (fun w => w.socketId == some sid)

/-- `findWatcherByName` (`server.js:74-76`), case-insensitive. -/
def findWatcherByName (s : DraftState) (name : String) : Option Watcher :=
  s.watchers.find? (fun w => jsToLower w.name == jsToLower name)

/-- `getCurrentPicker` (`server.js:79-85`). -/
def getCurrentPicker (s : DraftState) : Option Team :=
  if s.phase ≠ Phase.drafting ∨ s.draftOrder.length ≤ s.currentPickIndex then
    none
  else
    (s.draftOrder.get? s.currentPickIndex).bind (findTeamById s)

/-- `canDraftPosition` (`server.js:88-97`): the `limits` object is
`QB 1, RB 2, WR_TE 3, K 1`; any other position string falls through to `false`. -/
def canDraftPosition (team : Team) (position : String) : Bool :=
  if position = "QB" then decide (team.roster.QB.length < 1)
  else if position = "RB" then decide (team.roster.RB.length < 2)
  else if position = "WR" ∨ position = "TE" then decide (team.roster.WR_TE.length < 3)
  else if position = "K" then decide (team.roster.K.length < 1)
  else false

/-- `getRosterSlot` (`server.js:100-103`). -/
def getRosterSlot (position : String) : String :=
  if position = "WR" ∨ position = "TE" then "WR_TE" else position

/-- Reads `team.roster[slot]` for the four real slot keys (an unknown key is
`undefined` in JS; the handlers only reach it behind guards). -/
def Roster.slotGet (r : Roster) (slot : String) : List Player :=
  if slot = "QB" then r.QB
  else if slot = "RB" then r.RB
  else if slot = "WR_TE" then r.WR_TE
  else if slot = "K" then r.K
  else []

/-- Writes `team.roster[slot]` for the four real slot keys. -/
def Roster.slotSet (r : Roster) (slot : String) (l : List Player) : Roster :=
  if slot = "QB" then { r with QB := l }
  else if slot = "RB" then { r with RB := l }
  else if slot = "WR_TE" then { r with WR_TE := l }
  else if slot = "K" then { r with K := l }
  else r

/-- The per-slot quota constants (the `limits` object, `server.js:89`);
an unknown slot key has quota 0. -/
def limits (slot : String) : Nat :=
  if slot = "QB" then 1
  else if slot = "RB" then 2
  else if slot = "WR_TE" then 3
  else if slot = "K" then 1
  else 0

/-- The known raw position strings appearing in the pool data. -/
def knownPositions : List String := ["QB", "RB", "WR", "TE", "K"]

/-- `generateSnakeDraftOrder` (`server.js:106-124`).  The random shuffle of
line 108 is modelled by passing the shuffled team list explicitly (the JS
comparator-based shuffle always yields some permutation of the input). -/
def generateSnakeDraftOrder (shuffled : List Team) : List String :=
  (List.range 7).flatMap (fun round =>
    if round % 2 = 0 then shuffled.map Team.id
    else (shuffled.map Team.id).reverse)

/-- In-place mutation of the first list element satisfying `p` (JS `find`
followed by mutating the found object). -/
def updateFirst {α : Type} (p : α → Bool) (f : α → α) : List α → List α
  | [] => []
  | a :: as => if p a then f a :: as else a :: updateFirst p f as

/-- The empty roster a newly created team starts with (`server.js:295-300`). -/
def emptyRoster : Roster := ⟨[], [], [], []⟩

/-- The `join-draft` handler (`server.js:248-308`).  `newTeamId` stands for the
randomly generated id of `generateTeamId` (`server.js:127-129`). -/
def joinDraft (s : DraftState) (sid teamName newTeamId : String) :
    DraftState × Option Err :=
  if jsTrim teamName = "" then (s, some Err.EmptyName)
  else
    let trimmedName := jsTrim teamName
    match findTeamByName s trimmedName with
    | some _ =>
        ({ s with teams := updateFirst (fun t => jsToLower t.name == jsToLower trimmedName)
                    (fun t => { t with socketId := some sid }) s.teams }, none)
    | none =>
        if s.phase ≠ Phase.setup then (s, some Err.AlreadyStarted)
        else if 8 ≤ s.teams.length then (s, some Err.Full)
        else
          let cleared := updateFirst (fun t => t.socketId == some sid)
                    (fun t => { t with socketId := none }) s.teams
          ({ s with teams :=
              cleared ++ [{ id := newTeamId, name := trimmedName,
                            socketId := some sid, roster := emptyRoster }] }, none)

/-- The `join-as-watcher` handler (`server.js:311-351`).  `newWatcherId` stands
for the randomly generated watcher id. -/
def joinAsWatcher (s : DraftState) (sid watcherName newWatcherId : String) :
    DraftState × Option Err :=
  if jsTrim watcherName = "" then (s, some Err.EmptyName)
  else
    let trimmedName := jsTrim watcherName
    if (findTeamByName s trimmedName).isSome then (s, some Err.NameTaken)
    else
      match findWatcherByName s trimmedName with
      | some _ =>
          ({ s with watchers := updateFirst (fun w => jsToLower w.name == jsToLower trimmedName)
                      (fun w => { w with socketId := some sid }) s.watchers }, none)
      | none =>
          ({ s with watchers :=
              s.watchers ++ [{ id := newWatcherId, name := trimmedName,
                               socketId := some sid }] }, none)

/-- The `start-draft` handler (`server.js:354-376`).  The handler receives the
acting socket (`sid`) but never inspects it; `shuffle` models the random
shuffle performed inside `generateSnakeDraftOrder`. -/
def startDraft (s : DraftState) (shuffle : List Team → List Team) (sid : String) :
    DraftState × Option Err :=
  if s.phase ≠ Phase.setup then (s, some Err.AlreadyStarted)
  else if s.teams.length < 2 then (s, some Err.TooFewParticipants)
  else
    ({ s with draftOrder := generateSnakeDraftOrder (shuffle s.teams),
              phase := Phase.drafting,
              currentPickIndex := 0 }, none)

/-- The `draft-player` handler (`server.js:379-465`).  Returns the new state,
the error emitted on rejection, and whether the completion export
(`saveDraftResults`, line 450) was triggered.  `now` stands for `Date.now()`. -/
def draftPlayer (allPlayers : List Player) (s : DraftState) (sid playerId : String)
    (now : Nat) : DraftState × Option Err × Bool :=
  if s.phase ≠ Phase.drafting then (s, some Err.NotDrafting, false)
  else if s.paused then (s, some Err.Paused, false)
  else
    match findTeamBySocketId s sid with
    | none => (s, some Err.NotRegistered, false)
    | some team =>
      match getCurrentPicker s with
      | none => (s, some Err.NotYourTurn, false)
      | some currentPicker =>
        if currentPicker.id ≠ team.id then (s, some Err.NotYourTurn, false)
        else
          match allPlayers.find? (fun p => p.id == playerId) with
          | none => (s, some Err.UnknownItem, false)
          | some player =>
            if playerId ∈ s.draftedPlayerIds then (s, some Err.AlreadyDrafted, false)
            else if ¬ canDraftPosition team player.position then (s, some Err.SlotFull, false)
            else
              let rosterSlot := getRosterSlot player.position
              let teams' := updateFirst (fun t => t.socketId == some sid)
                  (fun t => { t with roster := (t.roster.slotSet rosterSlot
                                (t.roster.slotGet rosterSlot ++ [player])) })
                  s.teams
              let pickNumber := s.currentPickIndex + 1
              let picks' := s.picks ++
                  [{ teamId := team.id, playerId := playerId,
                     pickNumber := pickNumber, timestamp := now }]
              let drafted' := s.draftedPlayerIds ++ [playerId]
              let idx' := s.currentPickIndex + 1
              let isComplete := decide (s.teams.length * 7 ≤ idx')
              ({ s with teams := teams',
                        draftedPlayerIds := drafted',
                        picks := picks',
                        currentPickIndex := idx',
                        phase := if isComplete then Phase.complete else s.phase },
               none, isComplete)

/-- The `chat-message` handler (`server.js:468-507`).  Returns the new
`chatMessages` buffer, the error (if any) emitted to the sender, and the
message broadcast to all clients (if any).  `newMsgId` and `now` stand for the
randomly generated message id and `Date.now()`. -/
def chatMessageHandler (s : DraftState) (buf : List ChatMsg) (sid message newMsgId : String)
    (now : Nat) : List ChatMsg × Option Err × Option ChatMsg :=
  let team := findTeamBySocketId s sid
  let watcher := findWatcherBySocketId s sid
  if team = none ∧ watcher = none then (buf, some Err.NotJoinedChat, none)
  else if jsTrim message = "" then (buf, none, none)
  else
    let trimmedMessage := (jsTrim message).take 200
    let senderId :=
      match team, watcher with
      | some t, _ => t.id
      | none, some w => w.id
      | none, none => ""
    let senderName :=
      match team, watcher with
      | some t, _ => t.name
      | none, some w => w.name
      | none, none => ""
    let msg : ChatMsg :=
      { id := newMsgId, teamId := senderId,
        teamName := senderName ++ (if watcher.isSome then " (Spectator)" else ""),
        message := trimmedMessage, timestamp := now }
    let buf' := buf ++ [msg]
    let buf'' := if 100 < buf'.length then buf'.tail else buf'
    (buf'', none, some msg)

/-- The `pause-draft` handler (`server.js:515-530`). -/
def pauseDraft (s : DraftState) (sid : String) : DraftState × Option Err :=
  match findTeamBySocketId s sid with
  | none => (s, some Err.Unauthorized)
  | some team =>
    if team.name ≠ "BD Crushers" then (s, some Err.Unauthorized)
    else if s.phase ≠ Phase.drafting then (s, some Err.NotDrafting)
    else ({ s with paused := true }, none)

/-- The `resume-draft` handler (`server.js:533-548`). -/
def resumeDraft (s : DraftState) (sid : String) : DraftState × Option Err :=
  match findTeamBySocketId s sid with
  | none => (s, some Err.Unauthorized)
  | some team =>
    if team.name ≠ "BD Crushers" then (s, some Err.Unauthorized)
    else if s.phase ≠ Phase.drafting then (s, some Err.NotDrafting)
    else ({ s with paused := false }, none)

/-- The `undo-pick` handler (`server.js:551-609`).  `picks.findIndex` followed
by `splice(pickIndex, 1)` is the removal of the first pick whose `pickNumber`
matches, embedded via `find?` and `eraseP` on the same predicate. -/
def undoPick (allPlayers : List Player) (s : DraftState) (sid : String)
    (pickNumber : Nat) : DraftState × Option Err :=
  match findTeamBySocketId s sid with
  | none => (s, some Err.Unauthorized)
  | some team =>
    if team.name ≠ "BD Crushers" then (s, some Err.Unauthorized)
    else if s.phase ≠ Phase.drafting then (s, some Err.NotDrafting)
    else if ¬ s.paused then (s, some Err.NotPaused)
    else
      match s.picks.find? (fun p => p.pickNumber == pickNumber) with
      | none => (s, some Err.PickNotFound)
      | some pick =>
        match findTeamById s pick.teamId,
              allPlayers.find? (fun p => p.id == pick.playerId) with
        | some _, some player =>
          let rosterSlot := getRosterSlot player.position
          let teams' := updateFirst (fun t => t.id == pick.teamId)
              (fun t => { t with roster := (t.roster.slotSet rosterSlot
                            ((t.roster.slotGet rosterSlot).eraseP
                              (fun p => p.id == pick.playerId))) })
              s.teams
          let drafted' := s.draftedPlayerIds.filter (fun x => ! (x == pick.playerId))
          let picks' := s.picks.eraseP (fun p => p.pickNumber == pickNumber)
          let idx' := if 0 < s.currentPickIndex then s.currentPickIndex - 1
                      else s.currentPickIndex
          ({ s with teams := teams', draftedPlayerIds := drafted',
                    picks := picks', currentPickIndex := idx' }, none)
        | _, _ => (s, some Err.InvalidPickData)

/-- The `disconnect` handler (`server.js:612-624`): soft removal of the
connection binding only. -/
def disconnectHandler (s : DraftState) (sid : String) : DraftState :=
  { s with
      teams := updateFirst (fun t => t.socketId == some sid)
                 (fun t => { t with socketId := none }) s.teams,
      watchers := updateFirst (fun w => w.socketId == some sid)
                    (fun w => { w with socketId := none }) s.watchers }

/-- An inbound action, carrying the payload plus the nondeterministic inputs
(random ids, timestamps, the shuffle) consumed while handling it. -/
inductive Action where
  | join (sid teamName newTeamId : String)
  | joinWatcher (sid watcherName newWatcherId : String)
  | start (sid : String) (shuffle : List Team → List Team)
  | pick (sid playerId : String) (now : Nat)
  | chat (sid message newMsgId : String) (now : Nat)
  | pause (sid : String)
  | resume (sid : String)
  | undo (sid : String) (pickNumber : Nat)
  | disconnect (sid : String)

/-- One step of the server: route an action to its handler and keep the
resulting state (errors are emitted to the acting socket only). -/
def step (allPlayers : List Player) (st : ServerState) : Action → ServerState
  | Action.join sid name nid => { st with draft := (joinDraft st.draft sid name nid).1 }
  | Action.joinWatcher sid name wid => { st with draft := (joinAsWatcher st.draft sid name wid).1 }
  | Action.start sid shuffle => { st with draft := (startDraft st.draft shuffle sid).1 }
  | Action.pick sid pid now => { st with draft := (draftPlayer allPlayers st.draft sid pid now).1 }
  | Action.chat sid msg mid now =>
      { st with chatMessages := (chatMessageHandler st.draft st.chatMessages sid msg mid now).1 }
  | Action.pause sid => { st with draft := (pauseDraft st.draft sid).1 }
  | Action.resume sid => { st with draft := (resumeDraft st.draft sid).1 }
  | Action.undo sid n => { st with draft := (undoPick allPlayers st.draft sid n).1 }
  | Action.disconnect sid => { st with draft := disconnectHandler st.draft sid }

/-- The initial server state (`server.js:34-46`). -/
def initialState : ServerState :=
  { draft := { phase := Phase.setup, teams := [], watchers := [], draftOrder := [],
               currentPickIndex := 0, picks := [], draftedPlayerIds := [], paused := false },
    chatMessages := [] }

/-- Run a sequence of actions from a state. -/
def run (allPlayers : List Player) (st : ServerState) : List Action → ServerState
  | [] => st
  | a :: as => run allPlayers (step allPlayers st a) as

/-! Concrete sample data used to exercise the model at specific inputs. -/

/-- Sample team "Alpha", bound to socket `s1`. -/
def demoTeamA : Team :=
  { id := "team-a", name := "Alpha", socketId := some "s1", roster := emptyRoster }

/-- Sample privileged team "BD Crushers", bound to socket `s2`. -/
def demoTeamBD : Team :=
  { id := "team-bd", name := "BD Crushers", socketId := some "s2", roster := emptyRoster }

/-- Sample two-participant list. -/
def demoTeams : List Team := [demoTeamA, demoTeamBD]

/-- A permutation of `demoTeams`, standing for the random shuffle. -/
def demoShuffled : List Team := [demoTeamBD, demoTeamA]

/-- A sample quarterback pool item. -/
def demoPlayerQB : Player := { id := "KC-QB1", name := "QB One", team := "KC", position := "QB" }

/-- A sample kicker pool item. -/
def demoPlayerK : Player := { id := "KC-K1", name := "K One", team := "KC", position := "K" }

/-- A second sample quarterback pool item. -/
def demoPlayerQB2 : Player := { id := "BUF-QB1", name := "QB Two", team := "BUF", position := "QB" }

/-- A sample three-item pool. -/
def demoPlayers : List Player := [demoPlayerQB, demoPlayerQB2, demoPlayerK]

/-- A Setup-phase session with the two sample teams. -/
def demoSetup : DraftState :=
  { phase := Phase.setup, teams := demoTeams, watchers := [], draftOrder := [],
    currentPickIndex := 0, picks := [], draftedPlayerIds := [], paused := false }

/-- A Drafting-phase session with the two sample teams. -/
def demoDrafting : DraftState :=
  { demoSetup with phase := Phase.drafting,
                   draftOrder := generateSnakeDraftOrder demoTeams }

/-- The drafting session one pick away from completion (13 of 14 picks made;
`draftOrder` position 13 belongs to `demoTeamBD`). -/
def demoAlmostDone : DraftState :=
  { demoDrafting with currentPickIndex := 13 }

/-- A recorded sample pick (sequence number 1). -/
def demoPick1 : Pick :=
  { teamId := "team-a", playerId := "KC-QB1", pickNumber := 1, timestamp := 0 }

/-- Team "Alpha" with its QB slot already at quota. -/
def demoTeamAFull : Team :=
  { demoTeamA with roster := { emptyRoster with QB := [demoPlayerQB] } }

/-- A drafting session in which "Alpha" has already claimed the first QB and is
on the clock again. -/
def demoMidDraft : DraftState :=
  { demoDrafting with
      teams := [demoTeamAFull, demoTeamBD],
      picks := [demoPick1],
      draftedPlayerIds := ["KC-QB1"] }

/-- A paused drafting session holding one completed pick by "Alpha". -/
def demoPaused : DraftState :=
  { demoMidDraft with
      paused := true,
      currentPickIndex := 1 }

/-- A whole-server state whose session has already completed. -/
def demoCompleteServer : ServerState :=
  { draft := { demoAlmostDone with phase := Phase.complete }, chatMessages := [] }

/-! Session-state properties the claims quantify over. -/

/-- The spec's claimed-set invariant: `draftedPlayerIds` holds exactly the item
ids appearing in `picks`. -/
def claimedMatchesPicks (s : DraftState) : Prop :=
  ∀ x, x ∈ s.draftedPlayerIds ↔ x ∈ s.picks.map Pick.playerId

/-- Strengthened induction invariant: the claimed set matches the pick list and
no item id occurs twice in the pick list. -/
def draftInv (s : DraftState) : Prop :=
  claimedMatchesPicks s ∧ (s.picks.map Pick.playerId).Nodup

/-- Every roster slot is within its quota (QB 1, RB 2, WR_TE 3, K 1). -/
def rosterOk (r : Roster) : Prop :=
  r.QB.length ≤ 1 ∧ r.RB.length ≤ 2 ∧ r.WR_TE.length ≤ 3 ∧ r.K.length ≤ 1

/-- Every participant's roster is within quota. -/
def rostersOk (s : DraftState) : Prop :=
  ∀ t ∈ s.teams, rosterOk t.roster

/-! General lemmas about the embedding's list helpers. -/

theorem updateFirst_of_forall_neg {α : Type} {p : α → Bool} (f : α → α) {l : List α}
    (h : ∀ a ∈ l, p a = false) : updateFirst p f l = l := by
  induction l with
  | nil => rfl
  | cons a as ih =>
    have ha : p a = false := h a (List.mem_cons_self a as)
    simp [updateFirst, ha, ih (fun b hb => h b (List.mem_cons_of_mem a hb))]

theorem find?_updateFirst_decomp {α : Type} {p : α → Bool} {l : List α} {a : α}
    (h : l.find? p = some a) :
    p a = true ∧ ∃ l₁ l₂, l = l₁ ++ a :: l₂ ∧ (∀ b ∈ l₁, p b = false) ∧
      ∀ f : α → α, updateFirst p f l = l₁ ++ f a :: l₂ := by
  induction l with
  | nil => simp [List.find?] at h
  | cons x xs ih =>
    by_cases hx : p x = true
    · rw [List.find?_cons_of_pos _ hx] at h
      cases h
      exact ⟨hx, [], xs, rfl, by simp, fun f => by simp [updateFirst, hx]⟩
    · rw [List.find?_cons_of_neg _ hx] at h
      obtain ⟨hpa, l₁, l₂, hsplit, hneg, hupd⟩ := ih h
      refine ⟨hpa, x :: l₁, l₂, by simp [hsplit], ?_, ?_⟩
      · intro b hb
        rcases List.mem_cons.mp hb with rfl | hb
        · exact Bool.eq_false_iff.mpr hx
        · exact hneg b hb
      · intro f
        simp [updateFirst, hx, hupd f]

theorem updateFirst_map_eq {α β : Type} {p : α → Bool} {f : α → α} {g : α → β}
    (hg : ∀ a, g (f a) = g a) (l : List α) :
    (updateFirst p f l).map g = l.map g := by
  induction l with
  | nil => rfl
  | cons a as ih =>
    by_cases ha : p a
    · simp [updateFirst, ha, hg a]
    · simp [updateFirst, ha, ih]

theorem updateFirst_length {α : Type} (p : α → Bool) (f : α → α) (l : List α) :
    (updateFirst p f l).length = l.length := by
  induction l with
  | nil => rfl
  | cons a as ih =>
    by_cases ha : p a
    · simp [updateFirst, ha]
    · simp [updateFirst, ha, ih]

theorem mem_updateFirst {α : Type} {p : α → Bool} {f : α → α} {l : List α} {u : α}
    (h : u ∈ updateFirst p f l) : u ∈ l ∨ ∃ a ∈ l, p a = true ∧ u = f a := by
  induction l with
  | nil => simp [updateFirst] at h
  | cons a as ih =>
    by_cases ha : p a
    · rw [updateFirst, if_pos ha] at h
      rcases List.mem_cons.mp h with rfl | h
      · exact Or.inr ⟨a, List.mem_cons_self a as, ha, rfl⟩
      · exact Or.inl (List.mem_cons_of_mem a h)
    · rw [updateFirst, if_neg ha] at h
      rcases List.mem_cons.mp h with rfl | h
      · exact Or.inl (List.mem_cons_self u as)
      · rcases ih h with h | ⟨b, hb, hpb, hub⟩
        · exact Or.inl (List.mem_cons_of_mem a h)
        · exact Or.inr ⟨b, List.mem_cons_of_mem a hb, hpb, hub⟩

theorem eraseP_append_block {α : Type} {p : α → Bool} {l₁ : List α} {a : α} (l₂ : List α)
    (h₁ : ∀ b ∈ l₁, p b = false) (ha : p a = true) :
    (l₁ ++ a :: l₂).eraseP p = l₁ ++ l₂ := by
  induction l₁ with
  | nil => simp [List.eraseP_cons_of_pos ha]
  | cons x xs ih =>
    have hx : p x = false := h₁ x (List.mem_cons_self x xs)
    have hx' : ¬ p x = true := by simp [hx]
    rw [List.cons_append, List.eraseP_cons_of_neg hx',
        ih (fun b hb => h₁ b (List.mem_cons_of_mem x hb)), List.cons_append]

theorem drop_block {α : Type} {X : List α} {N : Nat} (hX : X.length = N)
    (rest : List α) (n : Nat) : (X ++ rest).drop (N + n) = rest.drop n := by
  subst hX
  exact List.drop_append n

theorem take_block {α : Type} {X : List α} {N : Nat} (hX : X.length = N)
    (rest : List α) : (X ++ rest).take N = X := by
  subst hX
  exact List.take_left X rest

/-! Lemmas about the snake-order generator. -/

theorem generateSnakeDraftOrder_eq (shuffled : List Team) :
    generateSnakeDraftOrder shuffled =
      shuffled.map Team.id ++ ((shuffled.map Team.id).reverse ++ (shuffled.map Team.id ++
        ((shuffled.map Team.id).reverse ++ (shuffled.map Team.id ++
          ((shuffled.map Team.id).reverse ++ shuffled.map Team.id))))) := by
  simp [generateSnakeDraftOrder, List.range_succ]

/-- C4: for every participant list of size N ≥ 2 (with distinct ids) and any
permutation of it produced by the shuffle, the order generator yields a
sequence of length 7N, in which each participant id appears exactly 7 times,
whose round segments follow the snake pattern (forward on even-indexed rounds,
reversed on odd-indexed rounds), so each round's segment is the exact reverse
of the previous round's segment. -/
theorem snake_order_spec (teams shuffled : List Team) (h2 : 2 ≤ teams.length)
    (hperm : shuffled.Perm teams) (hnodup : (teams.map Team.id).Nodup) :
    (generateSnakeDraftOrder shuffled).length = 7 * teams.length
    ∧ (∀ t ∈ teams, (generateSnakeDraftOrder shuffled).count t.id = 7)
    ∧ (∀ r, r < 7 →
        ((generateSnakeDraftOrder shuffled).drop (r * teams.length)).take teams.length
          = (if r % 2 = 0 then shuffled.map Team.id else (shuffled.map Team.id).reverse))
    ∧ (∀ r, r + 1 < 7 →
        ((generateSnakeDraftOrder shuffled).drop ((r + 1) * teams.length)).take teams.length
          = (((generateSnakeDraftOrder shuffled).drop (r * teams.length)).take
              teams.length).reverse) := by
  have hA : (shuffled.map Team.id).length = teams.length := by
    rw [List.length_map, hperm.length_eq]
  have hArev : (shuffled.map Team.id).reverse.length = teams.length := by
    rw [List.length_reverse, hA]
  have hseg : ∀ r, r < 7 →
      ((generateSnakeDraftOrder shuffled).drop (r * teams.length)).take teams.length
        = (if r % 2 = 0 then shuffled.map Team.id else (shuffled.map Team.id).reverse) := by
    intro r hr
    rw [generateSnakeDraftOrder_eq]
    interval_cases r
    · simpa using take_block hA _
    · rw [show 1 * teams.length = teams.length + 0 by ring, drop_block hA, List.drop_zero]
      simpa using take_block hArev _
    · rw [show 2 * teams.length = teams.length + (teams.length + 0) by ring,
          drop_block hA, drop_block hArev, List.drop_zero]
      simpa using take_block hA _
    · rw [show 3 * teams.length = teams.length + (teams.length + (teams.length + 0)) by ring,
          drop_block hA, drop_block hArev, drop_block hA, List.drop_zero]
      simpa using take_block hArev _
    · rw [show 4 * teams.length
            = teams.length + (teams.length + (teams.length + (teams.length + 0))) by ring,
          drop_block hA, drop_block hArev, drop_block hA, drop_block hArev, List.drop_zero]
      simpa using take_block hA _
    · rw [show 5 * teams.length
            = teams.length + (teams.length + (teams.length + (teams.length +
                (teams.length + 0)))) by ring,
          drop_block hA, drop_block hArev, drop_block hA, drop_block hArev, drop_block hA,
          List.drop_zero]
      simpa using take_block hArev _
    · rw [show 6 * teams.length
            = teams.length + (teams.length + (teams.length + (teams.length +
                (teams.length + (teams.length + 0))))) by ring,
          drop_block hA, drop_block hArev, drop_block hA, drop_block hArev, drop_block hA,
          drop_block hArev, List.drop_zero]
      exact List.take_of_length_le (le_of_eq hA)
  refine ⟨?_, ?_, hseg, ?_⟩
  · rw [generateSnakeDraftOrder_eq]
    simp only [List.length_append, List.length_reverse, hA]
    ring
  · intro t ht
    have hcount1 : (shuffled.map Team.id).count t.id = 1 := by
      rw [(hperm.map Team.id).count_eq]
      exact List.count_eq_one_of_mem hnodup (List.mem_map_of_mem Team.id ht)
    rw [generateSnakeDraftOrder_eq]
    simp only [List.count_append, List.count_reverse, hcount1]
  · intro r hr
    rw [hseg r (by omega), hseg (r + 1) (by omega)]
    rcases Nat.even_or_odd r with he | ho
    · have h1 : r % 2 = 0 := Nat.even_iff.mp he
      have h2 : (r + 1) % 2 = 1 := by omega
      simp [h1, h2]
    · have h1 : r % 2 = 1 := Nat.odd_iff.mp ho
      have h2 : (r + 1) % 2 = 0 := by omega
      simp [h1, h2]

/-- Witness for `snake_order_spec` at the two sample teams and a concrete shuffle. -/
theorem snake_order_spec_witness :
    (generateSnakeDraftOrder demoShuffled).length = 7 * demoTeams.length
    ∧ (generateSnakeDraftOrder demoShuffled).count demoTeamA.id = 7 :=
  ⟨(snake_order_spec demoTeams demoShuffled (by decide) (by decide) (by decide)).1,
   (snake_order_spec demoTeams demoShuffled (by decide) (by decide) (by decide)).2.1
     demoTeamA (by decide)⟩

/-- C1: the pick validations are applied in exactly the spec's order — phase,
pause flag, registration, turn, item existence, item availability, slot quota —
each failure returning its distinct error while leaving the whole session state
unchanged and not triggering the export. -/
theorem pick_validation_order (allPlayers : List Player) (s : DraftState)
    (sid playerId : String) (now : Nat) :
    ((draftPlayer allPlayers s sid playerId now).2.1.isSome →
        (draftPlayer allPlayers s sid playerId now).1 = s
        ∧ (draftPlayer allPlayers s sid playerId now).2.2 = false)
    ∧ (s.phase ≠ Phase.drafting →
        (draftPlayer allPlayers s sid playerId now).2.1 = some Err.NotDrafting)
    ∧ (s.phase = Phase.drafting → s.paused = true →
        (draftPlayer allPlayers s sid playerId now).2.1 = some Err.Paused)
    ∧ (s.phase = Phase.drafting → s.paused = false →
        findTeamBySocketId s sid = none →
        (draftPlayer allPlayers s sid playerId now).2.1 = some Err.NotRegistered)
    ∧ (∀ team, s.phase = Phase.drafting → s.paused = false →
        findTeamBySocketId s sid = some team →
        (∀ cp, getCurrentPicker s = some cp → cp.id ≠ team.id) →
        (draftPlayer allPlayers s sid playerId now).2.1 = some Err.NotYourTurn)
    ∧ (∀ team cp, s.phase = Phase.drafting → s.paused = false →
        findTeamBySocketId s sid = some team →
        getCurrentPicker s = some cp → cp.id = team.id →
        allPlayers.find? (fun p => p.id == playerId) = none →
        (draftPlayer allPlayers s sid playerId now).2.1 = some Err.UnknownItem)
    ∧ (∀ team cp player, s.phase = Phase.drafting → s.paused = false →
        findTeamBySocketId s sid = some team →
        getCurrentPicker s = some cp → cp.id = team.id →
        allPlayers.find? (fun p => p.id == playerId) = some player →
        playerId ∈ s.draftedPlayerIds →
        (draftPlayer allPlayers s sid playerId now).2.1 = some Err.AlreadyDrafted)
    ∧ (∀ team cp player, s.phase = Phase.drafting → s.paused = false →
        findTeamBySocketId s sid = some team →
        getCurrentPicker s = some cp → cp.id = team.id →
        allPlayers.find? (fun p => p.id == playerId) = some player →
        playerId ∉ s.draftedPlayerIds →
        canDraftPosition team player.position = false →
        (draftPlayer allPlayers s sid playerId now).2.1 = some Err.SlotFull) := by
  refine ⟨?_, ?_, ?_, ?_, ?_, ?_, ?_, ?_⟩
  · unfold draftPlayer
    repeat' split
    all_goals simp
  · intro h1
    simp [draftPlayer, h1]
  · intro h1 h2
    simp [draftPlayer, h1, h2]
  · intro h1 h2 h3
    simp [draftPlayer, h1, h2, h3]
  · intro team h1 h2 h3 h4
    rcases hcp : getCurrentPicker s with _ | cp
    · simp [draftPlayer, h1, h2, h3, hcp]
    · simp [draftPlayer, h1, h2, h3, hcp, h4 cp hcp]
  · intro team cp h1 h2 h3 hcp h5 hfind
    simp [draftPlayer, h1, h2, h3, hcp, h5, hfind]
  · intro team cp player h1 h2 h3 hcp h5 hfind hmem
    simp [draftPlayer, h1, h2, h3, hcp, h5, hfind, hmem]
  · intro team cp player h1 h2 h3 hcp h5 hfind hmem hcan
    simp [draftPlayer, h1, h2, h3, hcp, h5, hfind, hmem, hcan]

/-- Witness for `pick_validation_order`: with "Alpha" on the clock and its QB
slot full, picking a second QB is rejected with the SlotFull error. -/
theorem pick_validation_order_witness :
    (draftPlayer demoPlayers demoMidDraft "s1" "BUF-QB1" 0).2.1 = some Err.SlotFull :=
  (pick_validation_order demoPlayers demoMidDraft "s1" "BUF-QB1" 0).2.2.2.2.2.2.2
    demoTeamAFull demoTeamAFull demoPlayerQB2 (by decide) (by decide) (by decide)
    (by decide) (by decide) (by decide) (by decide) (by decide)

/-! Per-handler field-preservation lemmas: each handler touches only the state
components its source lines assign to. -/

theorem joinDraft_fields (s : DraftState) (sid name nid : String) :
    (joinDraft s sid name nid).1.phase = s.phase
    ∧ (joinDraft s sid name nid).1.picks = s.picks
    ∧ (joinDraft s sid name nid).1.draftedPlayerIds = s.draftedPlayerIds
    ∧ (joinDraft s sid name nid).1.paused = s.paused
    ∧ (joinDraft s sid name nid).1.draftOrder = s.draftOrder
    ∧ (joinDraft s sid name nid).1.currentPickIndex = s.currentPickIndex
    ∧ (joinDraft s sid name nid).1.watchers = s.watchers := by
  unfold joinDraft
  by_cases h1 : jsTrim name = "" <;>
    rcases h2 : findTeamByName s (jsTrim name) with _ | t <;>
      by_cases h3 : s.phase = Phase.setup <;>
        by_cases h4 : 8 ≤ s.teams.length <;>
          simp [h1, h2, h3, h4]

theorem joinAsWatcher_fields (s : DraftState) (sid name wid : String) :
    (joinAsWatcher s sid name wid).1.phase = s.phase
    ∧ (joinAsWatcher s sid name wid).1.picks = s.picks
    ∧ (joinAsWatcher s sid name wid).1.draftedPlayerIds = s.draftedPlayerIds
    ∧ (joinAsWatcher s sid name wid).1.paused = s.paused
    ∧ (joinAsWatcher s sid name wid).1.draftOrder = s.draftOrder
    ∧ (joinAsWatcher s sid name wid).1.currentPickIndex = s.currentPickIndex
    ∧ (joinAsWatcher s sid name wid).1.teams = s.teams := by
  unfold joinAsWatcher
  by_cases h1 : jsTrim name = "" <;>
    by_cases h2 : (findTeamByName s (jsTrim name)).isSome <;>
      rcases h3 : findWatcherByName s (jsTrim name) with _ | w <;>
        simp [h1, h2, h3]

theorem startDraft_fields (s : DraftState) (shuffle : List Team → List Team) (sid : String) :
    (startDraft s shuffle sid).1.picks = s.picks
    ∧ (startDraft s shuffle sid).1.draftedPlayerIds = s.draftedPlayerIds
    ∧ (startDraft s shuffle sid).1.paused = s.paused
    ∧ (startDraft s shuffle sid).1.teams = s.teams
    ∧ (startDraft s shuffle sid).1.watchers = s.watchers := by
  unfold startDraft
  by_cases h1 : s.phase = Phase.setup <;>
    by_cases h2 : s.teams.length < 2 <;>
      simp [h1, h2]

theorem pauseDraft_fields (s : DraftState) (sid : String) :
    (pauseDraft s sid).1.phase = s.phase
    ∧ (pauseDraft s sid).1.picks = s.picks
    ∧ (pauseDraft s sid).1.draftedPlayerIds = s.draftedPlayerIds
    ∧ (pauseDraft s sid).1.teams = s.teams
    ∧ (pauseDraft s sid).1.draftOrder = s.draftOrder
    ∧ (pauseDraft s sid).1.currentPickIndex = s.currentPickIndex
    ∧ (pauseDraft s sid).1.watchers = s.watchers := by
  unfold pauseDraft
  rcases h1 : findTeamBySocketId s sid with _ | team
  · simp [h1]
  by_cases h2 : team.name = "BD Crushers" <;>
    by_cases h3 : s.phase = Phase.drafting <;>
      simp [h1, h2, h3]

theorem resumeDraft_fields (s : DraftState) (sid : String) :
    (resumeDraft s sid).1.phase = s.phase
    ∧ (resumeDraft s sid).1.picks = s.picks
    ∧ (resumeDraft s sid).1.draftedPlayerIds = s.draftedPlayerIds
    ∧ (resumeDraft s sid).1.teams = s.teams
    ∧ (resumeDraft s sid).1.draftOrder = s.draftOrder
    ∧ (resumeDraft s sid).1.currentPickIndex = s.currentPickIndex
    ∧ (resumeDraft s sid).1.watchers = s.watchers := by
  unfold resumeDraft
  rcases h1 : findTeamBySocketId s sid with _ | team
  · simp [h1]
  by_cases h2 : team.name = "BD Crushers" <;>
    by_cases h3 : s.phase = Phase.drafting <;>
      simp [h1, h2, h3]

theorem undoPick_fields (allPlayers : List Player) (s : DraftState) (sid : String) (n : Nat) :
    (undoPick allPlayers s sid n).1.phase = s.phase
    ∧ (undoPick allPlayers s sid n).1.paused = s.paused
    ∧ (undoPick allPlayers s sid n).1.draftOrder = s.draftOrder
    ∧ (undoPick allPlayers s sid n).1.watchers = s.watchers := by
  unfold undoPick
  rcases h1 : findTeamBySocketId s sid with _ | team
  · simp [h1]
  by_cases h2 : team.name = "BD Crushers"
  case neg => simp [h1, h2]
  by_cases h3 : s.phase = Phase.drafting
  case neg => simp [h1, h2, h3]
  by_cases h4 : s.paused = true
  case neg => simp [h1, h2, h3, h4]
  rcases h5 : s.picks.find? (fun p => p.pickNumber == n) with _ | pick
  · simp [h1, h2, h3, h4, h5]
  rcases h6 : findTeamById s pick.teamId with _ | pickTeam
  · simp [h1, h2, h3, h4, h5, h6]
  rcases h7 : allPlayers.find? (fun p => p.id == pick.playerId) with _ | player
  · simp [h1, h2, h3, h4, h5, h6, h7]
  simp [h1, h2, h3, h4, h5, h6, h7]

theorem draftPlayer_fields (allPlayers : List Player) (s : DraftState)
    (sid pid : String) (now : Nat) :
    (draftPlayer allPlayers s sid pid now).1.paused = s.paused
    ∧ (draftPlayer allPlayers s sid pid now).1.draftOrder = s.draftOrder
    ∧ (draftPlayer allPlayers s sid pid now).1.watchers = s.watchers := by
  unfold draftPlayer
  by_cases h1 : s.phase = Phase.drafting
  case neg => simp [h1]
  by_cases h2 : s.paused = true
  case pos => simp [h1, h2]
  rcases h3 : findTeamBySocketId s sid with _ | team
  · simp [h1, h2, h3]
  rcases h4 : getCurrentPicker s with _ | cp
  · simp [h1, h2, h3, h4]
  by_cases h5 : cp.id = team.id
  case neg => simp [h1, h2, h3, h4, h5]
  rcases h6 : allPlayers.find? (fun p => p.id == pid) with _ | player
  · simp [h1, h2, h3, h4, h5, h6]
  by_cases h7 : pid ∈ s.draftedPlayerIds
  case pos => simp [h1, h2, h3, h4, h5, h6, h7]
  by_cases h8 : canDraftPosition team player.position
  case neg => simp [h1, h2, h3, h4, h5, h6, h7, h8]
  simp [h1, h2, h3, h4, h5, h6, h7, h8]

theorem disconnectHandler_fields (s : DraftState) (sid : String) :
    (disconnectHandler s sid).phase = s.phase
    ∧ (disconnectHandler s sid).picks = s.picks
    ∧ (disconnectHandler s sid).draftedPlayerIds = s.draftedPlayerIds
    ∧ (disconnectHandler s sid).paused = s.paused
    ∧ (disconnectHandler s sid).draftOrder = s.draftOrder
    ∧ (disconnectHandler s sid).currentPickIndex = s.currentPickIndex := by
  unfold disconnectHandler
  simp

theorem find?_append_block {α : Type} {p : α → Bool} {l₁ : List α} {a : α} (l₂ : List α)
    (h₁ : ∀ b ∈ l₁, p b = false) (ha : p a = true) :
    (l₁ ++ a :: l₂).find? p = some a := by
  induction l₁ with
  | nil => simp [List.find?_cons_of_pos _ ha]
  | cons x xs ih =>
    have hx : ¬ p x = true := by simp [h₁ x (List.mem_cons_self x xs)]
    rw [List.cons_append, List.find?_cons_of_neg _ hx]
    exact ih (fun b hb => h₁ b (List.mem_cons_of_mem x hb))

theorem updateFirst_append_block {α : Type} {p : α → Bool} {l₁ : List α} {a : α}
    (f : α → α) (l₂ : List α) (h₁ : ∀ b ∈ l₁, p b = false) (ha : p a = true) :
    updateFirst p f (l₁ ++ a :: l₂) = l₁ ++ f a :: l₂ := by
  induction l₁ with
  | nil => simp [updateFirst, ha]
  | cons x xs ih =>
    have hx : p x = false := h₁ x (List.mem_cons_self x xs)
    rw [List.cons_append, updateFirst, if_neg (by simp [hx]),
        ih (fun b hb => h₁ b (List.mem_cons_of_mem x hb)), List.cons_append]

/-! State-shape lemmas: each mutating handler either rejects (state unchanged)
or produces the explicitly described successor state. -/

theorem draftPlayer_state_cases (allPlayers : List Player) (s : DraftState)
    (sid pid : String) (now : Nat) :
    (draftPlayer allPlayers s sid pid now).1 = s
    ∨ ∃ team player,
        findTeamBySocketId s sid = some team
        ∧ allPlayers.find? (fun p => p.id == pid) = some player
        ∧ pid ∉ s.draftedPlayerIds
        ∧ canDraftPosition team player.position = true
        ∧ (draftPlayer allPlayers s sid pid now).1 =
            { s with
                teams := updateFirst (fun t => t.socketId == some sid)
                  (fun t => { t with roster := (t.roster.slotSet (getRosterSlot player.position)
                      (t.roster.slotGet (getRosterSlot player.position) ++ [player])) }) s.teams,
                draftedPlayerIds := s.draftedPlayerIds ++ [pid],
                picks := s.picks ++ [Pick.mk team.id pid (s.currentPickIndex + 1) now],
                currentPickIndex := s.currentPickIndex + 1,
                phase := if s.teams.length * 7 ≤ s.currentPickIndex + 1
                         then Phase.complete else s.phase } := by
  unfold draftPlayer
  by_cases h1 : s.phase = Phase.drafting
  case neg => exact Or.inl (by simp [h1])
  by_cases h2 : s.paused = true
  case pos => exact Or.inl (by simp [h1, h2])
  rcases h3 : findTeamBySocketId s sid with _ | team
  · exact Or.inl (by simp [h1, h2, h3])
  rcases h4 : getCurrentPicker s with _ | cp
  · exact Or.inl (by simp [h1, h2, h3, h4])
  by_cases h5 : cp.id = team.id
  case neg => exact Or.inl (by simp [h1, h2, h3, h4, h5])
  rcases h6 : allPlayers.find? (fun p => p.id == pid) with _ | player
  · exact Or.inl (by simp [h1, h2, h3, h4, h5, h6])
  by_cases h7 : pid ∈ s.draftedPlayerIds
  case pos => exact Or.inl (by simp [h1, h2, h3, h4, h5, h6, h7])
  by_cases h8 : canDraftPosition team player.position
  case neg => exact Or.inl (by simp [h1, h2, h3, h4, h5, h6, h7, h8])
  refine Or.inr ⟨team, player, rfl, h6, h7, h8, ?_⟩
  simp [h1, h2, h3, h4, h5, h6, h7, h8]

theorem undoPick_state_cases (allPlayers : List Player) (s : DraftState)
    (sid : String) (n : Nat) :
    (undoPick allPlayers s sid n).1 = s
    ∨ ∃ pick player,
        s.picks.find? (fun p => p.pickNumber == n) = some pick
        ∧ allPlayers.find? (fun p => p.id == pick.playerId) = some player
        ∧ (undoPick allPlayers s sid n).1 =
            { s with
                teams := updateFirst (fun t => t.id == pick.teamId)
                  (fun t => { t with roster := (t.roster.slotSet (getRosterSlot player.position)
                      ((t.roster.slotGet (getRosterSlot player.position)).eraseP
                        (fun p => p.id == pick.playerId))) }) s.teams,
                draftedPlayerIds :=
                  s.draftedPlayerIds.filter (fun x => ! (x == pick.playerId)),
                picks := s.picks.eraseP (fun p => p.pickNumber == n),
                currentPickIndex := if 0 < s.currentPickIndex then s.currentPickIndex - 1
                                    else s.currentPickIndex } := by
  unfold undoPick
  rcases h1 : findTeamBySocketId s sid with _ | team
  · exact Or.inl (by simp [h1])
  by_cases h2 : team.name = "BD Crushers"
  case neg => exact Or.inl (by simp [h1, h2])
  by_cases h3 : s.phase = Phase.drafting
  case neg => exact Or.inl (by simp [h1, h2, h3])
  by_cases h4 : s.paused = true
  case neg => exact Or.inl (by simp [h1, h2, h3, h4])
  rcases h5 : s.picks.find? (fun p => p.pickNumber == n) with _ | pick
  · exact Or.inl (by simp [h1, h2, h3, h4, h5])
  rcases h6 : findTeamById s pick.teamId with _ | pickTeam
  · exact Or.inl (by simp [h1, h2, h3, h4, h5, h6])
  rcases h7 : allPlayers.find? (fun p => p.id == pick.playerId) with _ | player
  · exact Or.inl (by simp [h1, h2, h3, h4, h5, h6, h7])
  refine Or.inr ⟨pick, player, h5, h7, ?_⟩
  simp [h1, h2, h3, h4, h5, h6, h7]

/-! Preservation of the claimed-set invariant by every handler. -/

theorem draftPlayer_preserves_inv (allPlayers : List Player) (s : DraftState)
    (sid pid : String) (now : Nat) (h : draftInv s) :
    draftInv (draftPlayer allPlayers s sid pid now).1 := by
  rcases draftPlayer_state_cases allPlayers s sid pid now with heq | ⟨team, player, -, -, hmem, -, heq⟩
  · rw [heq]; exact h
  · rw [heq]
    constructor
    · intro x
      simp only [claimedMatchesPicks] at h ⊢
      simp [List.mem_append, h.1 x]
    · simp only [List.map_append, List.map_cons, List.map_nil]
      rw [List.nodup_append]
      refine ⟨h.2, List.nodup_singleton pid, ?_⟩
      intro a ha hpa
      simp at hpa
      subst hpa
      exact hmem ((h.1 a).mpr ha)

theorem undoPick_preserves_inv (allPlayers : List Player) (s : DraftState)
    (sid : String) (n : Nat) (h : draftInv s) :
    draftInv (undoPick allPlayers s sid n).1 := by
  rcases undoPick_state_cases allPlayers s sid n with heq | ⟨pick, player, hfind, -, heq⟩
  · rw [heq]; exact h
  · rw [heq]
    obtain ⟨hp, l₁, l₂, hsplit, hneg, -⟩ := find?_updateFirst_decomp hfind
    have herase : s.picks.eraseP (fun p => p.pickNumber == n) = l₁ ++ l₂ := by
      rw [hsplit]; exact eraseP_append_block l₂ hneg hp
    have hmapsplit : s.picks.map Pick.playerId
        = l₁.map Pick.playerId ++ pick.playerId :: l₂.map Pick.playerId := by
      rw [hsplit]; simp
    have hnd := h.2
    rw [hmapsplit, List.nodup_append] at hnd
    have hpid1 : pick.playerId ∉ l₁.map Pick.playerId :=
      fun hx => hnd.2.2 hx (List.mem_cons_self _ _)
    have hpid2 : pick.playerId ∉ l₂.map Pick.playerId := (List.nodup_cons.mp hnd.2.1).1
    constructor
    · intro x
      show x ∈ s.draftedPlayerIds.filter (fun y => ! (y == pick.playerId))
          ↔ x ∈ (s.picks.eraseP (fun p => p.pickNumber == n)).map Pick.playerId
      rw [herase, List.map_append, List.mem_filter]
      rw [h.1 x, hmapsplit]
      simp only [List.mem_append, List.mem_cons]
      constructor
      · rintro ⟨hin, hne⟩
        simp at hne
        rcases hin with hin | hin | hin
        · exact Or.inl hin
        · exact absurd hin hne
        · exact Or.inr hin
      · rintro (hin | hin)
        · refine ⟨Or.inl hin, ?_⟩
          simp
          intro hx
          exact hpid1 (hx ▸ hin)
        · refine ⟨Or.inr (Or.inr hin), ?_⟩
          simp
          intro hx
          exact hpid2 (hx ▸ hin)
    · show ((s.picks.eraseP (fun p => p.pickNumber == n)).map Pick.playerId).Nodup
      rw [herase, List.map_append, List.nodup_append]
      refine ⟨hnd.1, (List.nodup_cons.mp hnd.2.1).2, ?_⟩
      intro a ha1 ha2
      exact hnd.2.2 ha1 (List.mem_cons_of_mem _ ha2)

theorem step_preserves_inv (allPlayers : List Player) (st : ServerState) (a : Action)
    (h : draftInv st.draft) : draftInv (step allPlayers st a).draft := by
  cases a with
  | join sid name nid =>
    have hf := joinDraft_fields st.draft sid name nid
    unfold draftInv claimedMatchesPicks at h ⊢
    rw [step, hf.2.1, hf.2.2.1]
    exact h
  | joinWatcher sid name wid =>
    have hf := joinAsWatcher_fields st.draft sid name wid
    unfold draftInv claimedMatchesPicks at h ⊢
    rw [step, hf.2.1, hf.2.2.1]
    exact h
  | start sid shuffle =>
    have hf := startDraft_fields st.draft shuffle sid
    unfold draftInv claimedMatchesPicks at h ⊢
    rw [step, hf.1, hf.2.1]
    exact h
  | pick sid pid now => exact draftPlayer_preserves_inv allPlayers st.draft sid pid now h
  | chat sid msg mid now => exact h
  | pause sid =>
    have hf := pauseDraft_fields st.draft sid
    unfold draftInv claimedMatchesPicks at h ⊢
    rw [step, hf.2.1, hf.2.2.1]
    exact h
  | resume sid =>
    have hf := resumeDraft_fields st.draft sid
    unfold draftInv claimedMatchesPicks at h ⊢
    rw [step, hf.2.1, hf.2.2.1]
    exact h
  | undo sid n => exact undoPick_preserves_inv allPlayers st.draft sid n h
  | disconnect sid =>
    have hf := disconnectHandler_fields st.draft sid
    unfold draftInv claimedMatchesPicks at h ⊢
    rw [step, hf.2.1, hf.2.2.1]
    exact h

theorem run_preserves_inv (allPlayers : List Player) (acts : List Action) :
    ∀ st : ServerState, draftInv st.draft → draftInv (run allPlayers st acts).draft := by
  induction acts with
  | nil => intro st h; exact h
  | cons a as ih =>
    intro st h
    exact ih (step allPlayers st a) (step_preserves_inv allPlayers st a h)

/-- C2: after every sequence of operations from the initial state (any mix of
join, start, pick, pause, resume, undo, chat, disconnect), the claimed-item id
set equals exactly the set of item ids appearing in the pick list. -/
theorem claimed_set_matches_pick_list (allPlayers : List Player) (acts : List Action)
    (x : String) :
    x ∈ (run allPlayers initialState acts).draft.draftedPlayerIds
      ↔ x ∈ ((run allPlayers initialState acts).draft.picks.map Pick.playerId) := by
  have hinit : draftInv initialState.draft := by
    constructor
    · intro y; simp [initialState]
    · simp [initialState]
  exact (run_preserves_inv allPlayers acts initialState hinit).1 x

/-! Preservation of the roster-quota invariant. -/

theorem rosterOk_emptyRoster : rosterOk emptyRoster := by
  simp [rosterOk, emptyRoster]

theorem rosterOk_push {t : Team} {player : Player}
    (hok : rosterOk t.roster) (hcan : canDraftPosition t player.position = true) :
    rosterOk (t.roster.slotSet (getRosterSlot player.position)
      (t.roster.slotGet (getRosterSlot player.position) ++ [player])) := by
  obtain ⟨hQ, hR, hW, hK⟩ := hok
  by_cases h1 : player.position = "QB"
  · rw [canDraftPosition, if_pos h1, decide_eq_true_eq] at hcan
    rw [h1]
    refine ⟨?_, hR, hW, hK⟩
    show (t.roster.QB ++ [player]).length ≤ 1
    rw [List.length_append, List.length_singleton]
    omega
  by_cases h2 : player.position = "RB"
  · rw [canDraftPosition, if_neg h1, if_pos h2, decide_eq_true_eq] at hcan
    rw [h2]
    refine ⟨hQ, ?_, hW, hK⟩
    show (t.roster.RB ++ [player]).length ≤ 2
    rw [List.length_append, List.length_singleton]
    omega
  by_cases h3 : player.position = "WR" ∨ player.position = "TE"
  · rw [canDraftPosition, if_neg h1, if_neg h2, if_pos h3, decide_eq_true_eq] at hcan
    rcases h3 with h3 | h3 <;> rw [h3] <;> refine ⟨hQ, hR, ?_, hK⟩ <;>
      · show (t.roster.WR_TE ++ [player]).length ≤ 3
        rw [List.length_append, List.length_singleton]
        omega
  by_cases h4 : player.position = "K"
  · rw [canDraftPosition, if_neg h1, if_neg h2, if_neg h3, if_pos h4,
        decide_eq_true_eq] at hcan
    rw [h4]
    refine ⟨hQ, hR, hW, ?_⟩
    show (t.roster.K ++ [player]).length ≤ 1
    rw [List.length_append, List.length_singleton]
    omega
  · rw [canDraftPosition, if_neg h1, if_neg h2, if_neg h3, if_neg h4] at hcan
    exact absurd hcan (by decide)

theorem rosterOk_erase {t : Team} (slot : String) (pred : Player → Bool)
    (hok : rosterOk t.roster) :
    rosterOk (t.roster.slotSet slot ((t.roster.slotGet slot).eraseP pred)) := by
  have hlen : ∀ l : List Player, (l.eraseP pred).length ≤ l.length := by
    intro l
    induction l with
    | nil => simp [List.eraseP]
    | cons a as ih =>
      by_cases ha : pred a
      · simp [List.eraseP_cons_of_pos ha]
      · simp [List.eraseP_cons_of_neg ha]
        omega
  obtain ⟨hQ, hR, hW, hK⟩ := hok
  by_cases h1 : slot = "QB"
  · simp [Roster.slotSet, Roster.slotGet, h1, rosterOk]
    exact ⟨le_trans (hlen _) hQ, hR, hW, hK⟩
  by_cases h2 : slot = "RB"
  · simp [Roster.slotSet, Roster.slotGet, h1, h2, rosterOk]
    exact ⟨hQ, le_trans (hlen _) hR, hW, hK⟩
  by_cases h3 : slot = "WR_TE"
  · simp [Roster.slotSet, Roster.slotGet, h1, h2, h3, rosterOk]
    exact ⟨hQ, hR, le_trans (hlen _) hW, hK⟩
  by_cases h4 : slot = "K"
  · simp [Roster.slotSet, Roster.slotGet, h1, h2, h3, h4, rosterOk]
    exact ⟨hQ, hR, hW, le_trans (hlen _) hK⟩
  · simp [Roster.slotSet, h1, h2, h3, h4, rosterOk]
    exact ⟨hQ, hR, hW, hK⟩

theorem rostersOk_updateFirst {p : Team → Bool} {f : Team → Team} {l : List Team}
    (h : ∀ t ∈ l, rosterOk t.roster) {u : Team} (hu : u ∈ updateFirst p f l)
    (hf : ∀ t, (f t).roster = t.roster) : rosterOk u.roster := by
  rcases mem_updateFirst hu with hu | ⟨a, ha, -, rfl⟩
  · exact h u hu
  · rw [hf a]
    exact h a ha

theorem joinDraft_teams_cases (s : DraftState) (sid name nid : String) :
    (joinDraft s sid name nid).1.teams = s.teams
    ∨ (joinDraft s sid name nid).1.teams
        = updateFirst (fun t => jsToLower t.name == jsToLower (jsTrim name))
            (fun t => { t with socketId := some sid }) s.teams
    ∨ (joinDraft s sid name nid).1.teams
        = updateFirst (fun t => t.socketId == some sid)
            (fun t => { t with socketId := none }) s.teams
          ++ [{ id := nid, name := jsTrim name, socketId := some sid,
                roster := emptyRoster }] := by
  unfold joinDraft
  by_cases h1 : jsTrim name = "" <;>
    rcases h2 : findTeamByName s (jsTrim name) with _ | t <;>
      by_cases h3 : s.phase = Phase.setup <;>
        by_cases h4 : 8 ≤ s.teams.length <;>
          simp [h1, h2, h3, h4]

theorem step_preserves_rostersOk (allPlayers : List Player) (st : ServerState) (a : Action)
    (h : rostersOk st.draft) : rostersOk (step allPlayers st a).draft := by
  cases a with
  | join sid name nid =>
    intro t ht
    simp only [step] at ht
    rcases joinDraft_teams_cases st.draft sid name nid with hc | hc | hc
    · rw [hc] at ht
      exact h t ht
    · rw [hc] at ht
      exact rostersOk_updateFirst h ht (fun u => rfl)
    · rw [hc] at ht
      rcases List.mem_append.mp ht with ht | ht
      · exact rostersOk_updateFirst h ht (fun u => rfl)
      · simp at ht
        rw [ht]
        exact rosterOk_emptyRoster
  | joinWatcher sid name wid =>
    intro t ht
    simp only [step] at ht
    rw [(joinAsWatcher_fields st.draft sid name wid).2.2.2.2.2.2] at ht
    exact h t ht
  | start sid shuffle =>
    intro t ht
    simp only [step] at ht
    rw [(startDraft_fields st.draft shuffle sid).2.2.2.1] at ht
    exact h t ht
  | pick sid pid now =>
    intro t ht
    simp only [step] at ht
    rcases draftPlayer_state_cases allPlayers st.draft sid pid now with
      heq | ⟨team, player, hfind, -, -, hcan, heq⟩
    · rw [heq] at ht
      exact h t ht
    · rw [heq] at ht
      unfold findTeamBySocketId at hfind
      obtain ⟨-, l₁, l₂, hsplit, -, hupd⟩ := find?_updateFirst_decomp hfind
      rw [hupd] at ht
      have hteam : rosterOk team.roster := h team (by rw [hsplit]; simp)
      rcases List.mem_append.mp ht with ht | ht
      · exact h t (by rw [hsplit]; exact List.mem_append_left _ ht)
      · rcases List.mem_cons.mp ht with rfl | ht
        · exact rosterOk_push hteam hcan
        · exact h t (by rw [hsplit]; exact List.mem_append_right _ (List.mem_cons_of_mem _ ht))
  | chat sid msg mid now => exact h
  | pause sid =>
    intro t ht
    simp only [step] at ht
    rw [(pauseDraft_fields st.draft sid).2.2.2.1] at ht
    exact h t ht
  | resume sid =>
    intro t ht
    simp only [step] at ht
    rw [(resumeDraft_fields st.draft sid).2.2.2.1] at ht
    exact h t ht
  | undo sid n =>
    intro t ht
    simp only [step] at ht
    rcases undoPick_state_cases allPlayers st.draft sid n with heq | ⟨pick, player, -, -, heq⟩
    · rw [heq] at ht
      exact h t ht
    · rw [heq] at ht
      rcases mem_updateFirst ht with ht | ⟨a, ha, -, rfl⟩
      · exact h t ht
      · exact rosterOk_erase _ _ (h a ha)
  | disconnect sid =>
    intro t ht
    simp only [step, disconnectHandler] at ht
    exact rostersOk_updateFirst h ht (fun u => rfl)

theorem run_preserves_rostersOk (allPlayers : List Player) (acts : List Action) :
    ∀ st : ServerState, rostersOk st.draft → rostersOk (run allPlayers st acts).draft := by
  induction acts with
  | nil => intro st h; exact h
  | cons a as ih =>
    intro st h
    exact ih (step allPlayers st a) (step_preserves_rostersOk allPlayers st a h)

/-- C3: in every reachable state each participant's roster slots stay within
their quotas (QB 1, RB 2, WR_TE 3, K 1); `canDraftPosition` returns true for a
known category exactly when the corresponding slot is below quota and returns
false for every unknown category; and a pick that would exceed a quota is
rejected with the SlotFull error with no state mutation at all. -/
theorem roster_quota_spec (allPlayers : List Player) :
    (∀ acts : List Action, ∀ t ∈ (run allPlayers initialState acts).draft.teams,
        t.roster.QB.length ≤ 1 ∧ t.roster.RB.length ≤ 2
          ∧ t.roster.WR_TE.length ≤ 3 ∧ t.roster.K.length ≤ 1)
    ∧ (∀ (team : Team) (c : String), c ∈ knownPositions →
        (canDraftPosition team c = true ↔
          (team.roster.slotGet (getRosterSlot c)).length < limits (getRosterSlot c)))
    ∧ (∀ (team : Team) (c : String), c ∉ knownPositions → canDraftPosition team c = false)
    ∧ (∀ (s : DraftState) (sid pid : String) (now : Nat) (team cp : Team) (player : Player),
        s.phase = Phase.drafting → s.paused = false →
        findTeamBySocketId s sid = some team →
        getCurrentPicker s = some cp → cp.id = team.id →
        allPlayers.find? (fun p => p.id == pid) = some player →
        pid ∉ s.draftedPlayerIds →
        canDraftPosition team player.position = false →
        draftPlayer allPlayers s sid pid now = (s, some Err.SlotFull, false)) := by
  refine ⟨?_, ?_, ?_, ?_⟩
  · intro acts t ht
    have hinit : rostersOk initialState.draft := by
      intro u hu
      simp [initialState] at hu
    exact run_preserves_rostersOk allPlayers acts initialState hinit t ht
  · intro team c hc
    fin_cases hc <;>
      simp [canDraftPosition, getRosterSlot, Roster.slotGet, limits]
  · intro team c hc
    simp only [knownPositions, List.mem_cons, List.not_mem_nil] at hc
    push_neg at hc
    obtain ⟨hc1, hc2, hc3, hc4, hc5⟩ := hc
    simp [canDraftPosition, hc1, hc2, hc3, hc4, hc5]
  · intro s sid pid now team cp player h1 h2 h3 hcp h5 hfind hmem hcan
    simp [draftPlayer, h1, h2, h3, hcp, h5, hfind, hmem, hcan]

/-- Witness for `roster_quota_spec`: the team created by a concrete join obeys
all quotas, and its empty QB slot is claimable. -/
theorem roster_quota_spec_witness :
    (demoTeamA.roster.QB.length ≤ 1 ∧ demoTeamA.roster.RB.length ≤ 2
      ∧ demoTeamA.roster.WR_TE.length ≤ 3 ∧ demoTeamA.roster.K.length ≤ 1)
    ∧ (canDraftPosition demoTeamA "QB" = true ↔
        (demoTeamA.roster.slotGet (getRosterSlot "QB")).length
          < limits (getRosterSlot "QB")) :=
  ⟨(roster_quota_spec demoPlayers).1 [Action.join "s1" "Alpha" "team-a"] demoTeamA
      (by decide),
   (roster_quota_spec demoPlayers).2.1 demoTeamA "QB" (by decide)⟩

/-- C5: a successful pick that raises `currentPickIndex` to
`participantCount × 7` sets the phase to Complete and triggers the results
export; and Complete is terminal — no action ever changes the phase of a
completed session again. -/
theorem complete_is_terminal (allPlayers : List Player) :
    (∀ (s : DraftState) (sid playerId : String) (now : Nat),
        (draftPlayer allPlayers s sid playerId now).2.1 = none →
        (draftPlayer allPlayers s sid playerId now).1.currentPickIndex = s.teams.length * 7 →
        (draftPlayer allPlayers s sid playerId now).1.phase = Phase.complete
          ∧ (draftPlayer allPlayers s sid playerId now).2.2 = true)
    ∧ (∀ (st : ServerState) (a : Action), st.draft.phase = Phase.complete →
        (step allPlayers st a).draft.phase = Phase.complete) := by
  constructor
  · intro s sid playerId now hok hidx
    unfold draftPlayer at hok hidx ⊢
    repeat' split at hok
    all_goals simp_all
  · intro st a hph
    cases a with
    | join sid name nid => rw [step, (joinDraft_fields st.draft sid name nid).1, hph]
    | joinWatcher sid name wid => rw [step, (joinAsWatcher_fields st.draft sid name wid).1, hph]
    | start sid shuffle => simp [step, startDraft, hph]
    | pick sid pid now => simp [step, draftPlayer, hph]
    | chat sid msg mid now => exact hph
    | pause sid => rw [step, (pauseDraft_fields st.draft sid).1, hph]
    | resume sid => rw [step, (resumeDraft_fields st.draft sid).1, hph]
    | undo sid n => rw [step, (undoPick_fields allPlayers st.draft sid n).1, hph]
    | disconnect sid => rw [step, (disconnectHandler_fields st.draft sid).1, hph]

/-- Witness for `complete_is_terminal`: the 14th pick of the two-team sample
session completes the draft and triggers the export, and a subsequent start
attempt leaves the phase Complete. -/
theorem complete_is_terminal_witness :
    ((draftPlayer demoPlayers demoAlmostDone "s2" "KC-K1" 0).1.phase = Phase.complete
      ∧ (draftPlayer demoPlayers demoAlmostDone "s2" "KC-K1" 0).2.2 = true)
    ∧ (step demoPlayers demoCompleteServer
        (Action.join "s9" "Zed" "team-z")).draft.phase = Phase.complete :=
  ⟨(complete_is_terminal demoPlayers).1 demoAlmostDone "s2" "KC-K1" 0 (by decide) (by decide),
   (complete_is_terminal demoPlayers).2 demoCompleteServer
     (Action.join "s9" "Zed" "team-z") (by decide)⟩

/-- C10: the start handler performs no caller-identity check — any two
connections get the identical outcome — and its success depends only on the
phase being Setup and the participant count being at least 2. -/
theorem start_no_identity_check (s : DraftState) (shuffle : List Team → List Team)
    (sid₁ sid₂ : String) :
    startDraft s shuffle sid₁ = startDraft s shuffle sid₂
    ∧ ((startDraft s shuffle sid₁).2 = none ↔
        (s.phase = Phase.setup ∧ 2 ≤ s.teams.length)) := by
  refine ⟨rfl, ?_⟩
  unfold startDraft
  by_cases h : s.phase = Phase.setup
  · by_cases hl : s.teams.length < 2
    · simp only [h]
      simp [hl]
    · simp only [h]
      simp [hl]
      omega
  · simp [h]

/-- C6: undo requires the privileged participant (Unauthorized otherwise),
requires the Drafting phase and the paused flag, and fails with PickNotFound
when no pick carries the given sequence number; on success it removes exactly
the first pick matching that sequence number from the pick list without
renumbering the remaining picks, deletes its item id from the claimed set,
removes the item from the owning participant's roster slot list, and
decrements `currentPickIndex` by one when it is positive. -/
theorem undo_spec (allPlayers : List Player) (s : DraftState) (sid : String) (n : Nat) :
    ((∀ team, findTeamBySocketId s sid = some team → team.name ≠ "BD Crushers") →
        undoPick allPlayers s sid n = (s, some Err.Unauthorized))
    ∧ (∀ team, findTeamBySocketId s sid = some team → team.name = "BD Crushers" →
        s.phase ≠ Phase.drafting →
        undoPick allPlayers s sid n = (s, some Err.NotDrafting))
    ∧ (∀ team, findTeamBySocketId s sid = some team → team.name = "BD Crushers" →
        s.phase = Phase.drafting → s.paused = false →
        undoPick allPlayers s sid n = (s, some Err.NotPaused))
    ∧ (∀ team, findTeamBySocketId s sid = some team → team.name = "BD Crushers" →
        s.phase = Phase.drafting → s.paused = true →
        (∀ p ∈ s.picks, p.pickNumber ≠ n) →
        undoPick allPlayers s sid n = (s, some Err.PickNotFound))
    ∧ ((undoPick allPlayers s sid n).2 = none →
        ∃ pk player l₁ l₂,
          s.picks = l₁ ++ pk :: l₂
          ∧ (∀ q ∈ l₁, q.pickNumber ≠ n)
          ∧ pk.pickNumber = n
          ∧ allPlayers.find? (fun p => p.id == pk.playerId) = some player
          ∧ (undoPick allPlayers s sid n).1.picks = l₁ ++ l₂
          ∧ (∀ x, x ∈ (undoPick allPlayers s sid n).1.draftedPlayerIds ↔
              (x ∈ s.draftedPlayerIds ∧ x ≠ pk.playerId))
          ∧ (undoPick allPlayers s sid n).1.currentPickIndex
              = (if 0 < s.currentPickIndex then s.currentPickIndex - 1
                 else s.currentPickIndex)
          ∧ (undoPick allPlayers s sid n).1.teams
              = updateFirst (fun t => t.id == pk.teamId)
                  (fun t => { t with roster := (t.roster.slotSet (getRosterSlot player.position)
                      ((t.roster.slotGet (getRosterSlot player.position)).eraseP
                        (fun p => p.id == pk.playerId))) }) s.teams
          ∧ (undoPick allPlayers s sid n).1.phase = s.phase
          ∧ (undoPick allPlayers s sid n).1.paused = s.paused
          ∧ (undoPick allPlayers s sid n).1.draftOrder = s.draftOrder
          ∧ (undoPick allPlayers s sid n).1.watchers = s.watchers) := by
  refine ⟨?_, ?_, ?_, ?_, ?_⟩
  · intro hpriv
    rcases h1 : findTeamBySocketId s sid with _ | team
    · simp [undoPick, h1]
    · simp [undoPick, h1, hpriv team h1]
  · intro team h1 h2 h3
    simp [undoPick, h1, h2, h3]
  · intro team h1 h2 h3 h4
    simp [undoPick, h1, h2, h3, h4]
  · intro team h1 h2 h3 h4 hno
    have h5 : s.picks.find? (fun p => p.pickNumber == n) = none := by
      rw [List.find?_eq_none]
      intro p hp
      simp [hno p hp]
    simp [undoPick, h1, h2, h3, h4, h5]
  · intro hok
    rcases h1 : findTeamBySocketId s sid with _ | team
    · rw [undoPick] at hok
      simp [h1] at hok
    by_cases h2 : team.name = "BD Crushers"
    case neg =>
      rw [undoPick] at hok
      simp [h1, h2] at hok
    by_cases h3 : s.phase = Phase.drafting
    case neg =>
      rw [undoPick] at hok
      simp [h1, h2, h3] at hok
    by_cases h4 : s.paused = true
    case neg =>
      rw [undoPick] at hok
      simp [h1, h2, h3, h4] at hok
    rcases h5 : s.picks.find? (fun p => p.pickNumber == n) with _ | pick
    · rw [undoPick] at hok
      simp [h1, h2, h3, h4, h5] at hok
    rcases h6 : findTeamById s pick.teamId with _ | pickTeam
    · rw [undoPick] at hok
      simp [h1, h2, h3, h4, h5, h6] at hok
    rcases h7 : allPlayers.find? (fun p => p.id == pick.playerId) with _ | player
    · rw [undoPick] at hok
      simp [h1, h2, h3, h4, h5, h6, h7] at hok
    have hres : (undoPick allPlayers s sid n).1 =
        { s with
            teams := updateFirst (fun t => t.id == pick.teamId)
              (fun t => { t with roster := (t.roster.slotSet (getRosterSlot player.position)
                  ((t.roster.slotGet (getRosterSlot player.position)).eraseP
                    (fun p => p.id == pick.playerId))) }) s.teams,
            draftedPlayerIds := s.draftedPlayerIds.filter (fun x => ! (x == pick.playerId)),
            picks := s.picks.eraseP (fun p => p.pickNumber == n),
            currentPickIndex := if 0 < s.currentPickIndex then s.currentPickIndex - 1
                                else s.currentPickIndex } := by
      simp [undoPick, h1, h2, h3, h4, h5, h6, h7]
    obtain ⟨hp, l₁, l₂, hsplit, hneg, -⟩ := find?_updateFirst_decomp h5
    have herase : s.picks.eraseP (fun p => p.pickNumber == n) = l₁ ++ l₂ := by
      rw [hsplit]
      exact eraseP_append_block l₂ hneg hp
    refine ⟨pick, player, l₁, l₂, hsplit, ?_, by simpa using hp, h7, ?_, ?_, ?_, ?_, ?_, ?_, ?_, ?_⟩
    · intro q hq
      have := hneg q hq
      simpa using this
    · rw [hres]
      exact herase
    · intro x
      rw [hres]
      show x ∈ s.draftedPlayerIds.filter (fun y => ! (y == pick.playerId)) ↔ _
      simp [List.mem_filter]
    · rw [hres]
    · rw [hres]
    · rw [hres]
    · rw [hres]
    · rw [hres]
    · rw [hres]

/-- Witness for `undo_spec`: undoing pick 1 in the paused sample session
succeeds and has the described effect, and a non-privileged connection is
rejected with Unauthorized. -/
theorem undo_spec_witness :
    (∃ pk player l₁ l₂,
        demoPaused.picks = l₁ ++ pk :: l₂
        ∧ (∀ q ∈ l₁, q.pickNumber ≠ 1)
        ∧ pk.pickNumber = 1
        ∧ demoPlayers.find? (fun p => p.id == pk.playerId) = some player
        ∧ (undoPick demoPlayers demoPaused "s2" 1).1.picks = l₁ ++ l₂
        ∧ (∀ x, x ∈ (undoPick demoPlayers demoPaused "s2" 1).1.draftedPlayerIds ↔
            (x ∈ demoPaused.draftedPlayerIds ∧ x ≠ pk.playerId))
        ∧ (undoPick demoPlayers demoPaused "s2" 1).1.currentPickIndex
            = (if 0 < demoPaused.currentPickIndex then demoPaused.currentPickIndex - 1
               else demoPaused.currentPickIndex)
        ∧ (undoPick demoPlayers demoPaused "s2" 1).1.teams
            = updateFirst (fun t => t.id == pk.teamId)
                (fun t => { t with roster := (t.roster.slotSet (getRosterSlot player.position)
                    ((t.roster.slotGet (getRosterSlot player.position)).eraseP
                      (fun p => p.id == pk.playerId))) }) demoPaused.teams
        ∧ (undoPick demoPlayers demoPaused "s2" 1).1.phase = demoPaused.phase
        ∧ (undoPick demoPlayers demoPaused "s2" 1).1.paused = demoPaused.paused
        ∧ (undoPick demoPlayers demoPaused "s2" 1).1.draftOrder = demoPaused.draftOrder
        ∧ (undoPick demoPlayers demoPaused "s2" 1).1.watchers = demoPaused.watchers)
    ∧ undoPick demoPlayers demoPaused "s1" 1 = (demoPaused, some Err.Unauthorized) :=
  ⟨(undo_spec demoPlayers demoPaused "s2" 1).2.2.2.2 (by decide),
   (undo_spec demoPlayers demoPaused "s1" 1).1 (by decide)⟩

/-- C7: a join with a name already registered to a participant (matched
case-insensitively, in any phase) succeeds, rebinds that participant's
connection to the new connection id, creates no participant, leaves every
roster and all other session state unchanged, and doing it twice in a row has
the same effect as doing it once. -/
theorem join_reconnect_spec (s : DraftState) (sid name nid : String) (t : Team)
    (hne : jsTrim name ≠ "")
    (hfind : findTeamByName s (jsTrim name) = some t) :
    ((joinDraft s sid name nid).2 = none)
    ∧ (∃ l₁ l₂, s.teams = l₁ ++ t :: l₂
        ∧ (∀ u ∈ l₁, (jsToLower u.name == jsToLower (jsTrim name)) = false)
        ∧ (joinDraft s sid name nid).1.teams
            = l₁ ++ { t with socketId := some sid } :: l₂)
    ∧ (joinDraft s sid name nid).1.teams.length = s.teams.length
    ∧ (joinDraft s sid name nid).1.teams.map Team.roster = s.teams.map Team.roster
    ∧ (joinDraft s sid name nid).1.teams.map Team.id = s.teams.map Team.id
    ∧ (joinDraft s sid name nid).1.teams.map Team.name = s.teams.map Team.name
    ∧ (joinDraft s sid name nid).1.phase = s.phase
    ∧ (joinDraft s sid name nid).1.picks = s.picks
    ∧ (joinDraft s sid name nid).1.draftedPlayerIds = s.draftedPlayerIds
    ∧ (joinDraft s sid name nid).1.watchers = s.watchers
    ∧ (joinDraft s sid name nid).1.currentPickIndex = s.currentPickIndex
    ∧ (joinDraft s sid name nid).1.draftOrder = s.draftOrder
    ∧ (joinDraft s sid name nid).1.paused = s.paused
    ∧ joinDraft (joinDraft s sid name nid).1 sid name nid
        = ((joinDraft s sid name nid).1, none) := by
  have hres : joinDraft s sid name nid =
      ({ s with teams := (updateFirst (fun u => jsToLower u.name == jsToLower (jsTrim name))
                  (fun u => { u with socketId := some sid }) s.teams) }, none) := by
    simp [joinDraft, hne, hfind]
  have hfind' : s.teams.find? (fun u => jsToLower u.name == jsToLower (jsTrim name)) = some t := by
    simpa [findTeamByName] using hfind
  have hdec := find?_updateFirst_decomp hfind'
  obtain ⟨hp, l₁, l₂, hsplit, hneg, hupd⟩ := hdec
  have hteams : (joinDraft s sid name nid).1.teams
      = l₁ ++ { t with socketId := some sid } :: l₂ := by
    rw [hres]
    exact hupd _
  refine ⟨by rw [hres], ⟨l₁, l₂, hsplit, hneg, hteams⟩, ?_, ?_, ?_, ?_,
    by rw [hres], by rw [hres], by rw [hres], by rw [hres], by rw [hres],
    by rw [hres], by rw [hres], ?_⟩
  · rw [hres]
    show (updateFirst _ _ s.teams).length = s.teams.length
    exact updateFirst_length _ _ _
  · rw [hres]
    show (updateFirst _ _ s.teams).map Team.roster = s.teams.map Team.roster
    apply updateFirst_map_eq
    intro a
    rfl
  · rw [hres]
    show (updateFirst _ _ s.teams).map Team.id = s.teams.map Team.id
    apply updateFirst_map_eq
    intro a
    rfl
  · rw [hres]
    show (updateFirst _ _ s.teams).map Team.name = s.teams.map Team.name
    apply updateFirst_map_eq
    intro a
    rfl
  · have hfind2 : findTeamByName (joinDraft s sid name nid).1 (jsTrim name)
        = some ({ t with socketId := some sid }) := by
      show (joinDraft s sid name nid).1.teams.find? _ = _
      rw [hteams]
      exact find?_append_block l₂ hneg hp
    obtain ⟨s', hs'⟩ : ∃ s', (joinDraft s sid name nid).1 = s' := ⟨_, rfl⟩
    rw [hs'] at hfind2 hteams ⊢
    have hres2 : joinDraft s' sid name nid =
        ({ s' with teams := (updateFirst (fun u => jsToLower u.name == jsToLower (jsTrim name))
              (fun u => { u with socketId := some sid }) s'.teams) }, none) := by
      simp [joinDraft, hne, hfind2]
    rw [hres2]
    have hsame : updateFirst (fun u => jsToLower u.name == jsToLower (jsTrim name))
        (fun u => { u with socketId := some sid }) s'.teams = s'.teams := by
      rw [hteams]
      exact updateFirst_append_block _ l₂ hneg hp
    rw [hsame]

/-- Witness for `join_reconnect_spec`: rejoining as " ALPHA " (whitespace and
case differing from the stored "Alpha") from a new socket succeeds and is
idempotent. -/
theorem join_reconnect_spec_witness :
    (joinDraft demoSetup "s9" " ALPHA " "team-x").2 = none
    ∧ joinDraft (joinDraft demoSetup "s9" " ALPHA " "team-x").1 "s9" " ALPHA " "team-x"
        = ((joinDraft demoSetup "s9" " ALPHA " "team-x").1, none) :=
  ⟨(join_reconnect_spec demoSetup "s9" " ALPHA " "team-x" demoTeamA (by decide)
      (by decide)).1,
   (join_reconnect_spec demoSetup "s9" " ALPHA " "team-x" demoTeamA (by decide)
      (by decide)).2.2.2.2.2.2.2.2.2.2.2.2.2⟩

/-- C8 counterexample: in a Drafting-phase session, registering a brand-new
spectator name succeeds and appends a new spectator — the handler emits no
AlreadyStarted error outside Setup, contradicting the claimed symmetry with
participant registration. -/
theorem watcher_join_midphase_counterexample :
    demoDrafting.phase ≠ Phase.setup
    ∧ findTeamByName demoDrafting "Zoe" = none
    ∧ findWatcherByName demoDrafting "Zoe" = none
    ∧ (joinAsWatcher demoDrafting "s9" "Zoe" "w9").2 = none
    ∧ (joinAsWatcher demoDrafting "s9" "Zoe" "w9").1.watchers
        = [{ id := "w9", name := "Zoe", socketId := some "s9" }] := by
  refine ⟨by decide, by decide, by decide, by decide, by decide⟩

/-- C8 (amended): spectator registration is phase-independent in every path —
a name held by a participant fails with NameTaken in any phase, a known
spectator name rebinds its connection in any phase, and any other nonempty
name registers a new spectator in any phase (the handler has no Setup-phase
check and no capacity check). -/
theorem watcher_join_spec (s : DraftState) (sid name wid : String)
    (hne : jsTrim name ≠ "") :
    ((findTeamByName s (jsTrim name)).isSome →
        joinAsWatcher s sid name wid = (s, some Err.NameTaken))
    ∧ (∀ w, findTeamByName s (jsTrim name) = none →
        findWatcherByName s (jsTrim name) = some w →
        joinAsWatcher s sid name wid
          = ({ s with watchers := (updateFirst
                (fun u => jsToLower u.name == jsToLower (jsTrim name))
                (fun u => { u with socketId := some sid }) s.watchers) }, none))
    ∧ (findTeamByName s (jsTrim name) = none →
        findWatcherByName s (jsTrim name) = none →
        joinAsWatcher s sid name wid
          = ({ s with watchers := s.watchers
                ++ [{ id := wid, name := jsTrim name, socketId := some sid }] }, none)) := by
  refine ⟨?_, ?_, ?_⟩
  · intro hsome
    simp [joinAsWatcher, hne, hsome]
  · intro w hteam hw
    simp [joinAsWatcher, hne, hteam, hw]
  · intro hteam hw
    simp [joinAsWatcher, hne, hteam, hw]

/-- Witness for `watcher_join_spec`: a fresh spectator name is registered
during Drafting, and a name colliding with team "Alpha" is rejected with
NameTaken during Drafting. -/
theorem watcher_join_spec_witness :
    joinAsWatcher demoDrafting "s9" "Zoe" "w9"
      = ({ demoDrafting with watchers := demoDrafting.watchers
            ++ [{ id := "w9", name := "Zoe", socketId := some "s9" }] }, none)
    ∧ joinAsWatcher demoDrafting "s9" "alpha" "w9"
        = (demoDrafting, some Err.NameTaken) :=
  ⟨(watcher_join_spec demoDrafting "s9" "Zoe" "w9" (by decide)).2.2 (by decide) (by decide),
   (watcher_join_spec demoDrafting "s9" "alpha" "w9" (by decide)).1 (by decide)⟩

/-- C9 counterexample: a chat post from a connection registered as neither a
participant nor a spectator is answered with an explicit error message to the
sender, contradicting the claimed silent no-op (the buffer is unchanged and
nothing is broadcast, as claimed). -/
theorem chat_unregistered_counterexample :
    findTeamBySocketId demoSetup "ghost" = none
    ∧ findWatcherBySocketId demoSetup "ghost" = none
    ∧ (chatMessageHandler demoSetup [] "ghost" "hello" "m1" 0).2.1
        = some Err.NotJoinedChat
    ∧ (chatMessageHandler demoSetup [] "ghost" "hello" "m1" 0).1 = []
    ∧ (chatMessageHandler demoSetup [] "ghost" "hello" "m1" 0).2.2 = none := by
  refine ⟨by decide, by decide, by decide, by decide, by decide⟩

/-- C9 (amended): a chat post from a connection that is neither a participant
nor a spectator is rejected with an explicit error surfaced to the sender
(not a silent no-op), while nothing is broadcast and the buffer is unchanged;
empty or whitespace-only text from a registered sender is silently ignored;
accepted text is truncated to 200 characters and the oldest message is
evicted once more than 100 are retained. -/
theorem chat_spec (s : DraftState) (buf : List ChatMsg) (sid msg mid : String)
    (now : Nat) :
    (findTeamBySocketId s sid = none → findWatcherBySocketId s sid = none →
        chatMessageHandler s buf sid msg mid now = (buf, some Err.NotJoinedChat, none))
    ∧ (((findTeamBySocketId s sid).isSome ∨ (findWatcherBySocketId s sid).isSome) →
        jsTrim msg = "" →
        chatMessageHandler s buf sid msg mid now = (buf, none, none))
    ∧ (((findTeamBySocketId s sid).isSome ∨ (findWatcherBySocketId s sid).isSome) →
        jsTrim msg ≠ "" →
        ∃ m, (chatMessageHandler s buf sid msg mid now).2.2 = some m
          ∧ m.message = (jsTrim msg).take 200
          ∧ (chatMessageHandler s buf sid msg mid now).2.1 = none
          ∧ (chatMessageHandler s buf sid msg mid now).1
              = (if 100 < buf.length + 1 then (buf ++ [m]).tail else buf ++ [m])) := by
  refine ⟨?_, ?_, ?_⟩
  · intro hteam hw
    simp [chatMessageHandler, hteam, hw]
  · intro hsome hemp
    rcases hsome with hsome | hsome
    · rcases Option.isSome_iff_exists.mp hsome with ⟨team, hteam⟩
      simp [chatMessageHandler, hteam, hemp]
    · rcases Option.isSome_iff_exists.mp hsome with ⟨w, hw⟩
      rcases hteam : findTeamBySocketId s sid with _ | team
      · simp [chatMessageHandler, hteam, hw, hemp]
      · simp [chatMessageHandler, hteam, hw, hemp]
  · intro hsome hne
    rcases hteam : findTeamBySocketId s sid with _ | team
    · rcases hw : findWatcherBySocketId s sid with _ | w
      · rw [hteam, hw] at hsome
        simp at hsome
      · refine Exists.intro (ChatMsg.mk mid w.id (w.name ++ " (Spectator)")
            ((jsTrim msg).take 200) now) (And.intro ?_ (And.intro ?_ (And.intro ?_ ?_)))
        · unfold chatMessageHandler
          rw [hteam, hw]
          simp [hne]
        · simp only []
        · unfold chatMessageHandler
          rw [hteam, hw]
          simp [hne]
        · unfold chatMessageHandler
          rw [hteam, hw]
          simp [hne]
    · refine Exists.intro (ChatMsg.mk mid team.id
          (team.name ++ (if (findWatcherBySocketId s sid).isSome then " (Spectator)" else ""))
          ((jsTrim msg).take 200) now) (And.intro ?_ (And.intro ?_ (And.intro ?_ ?_)))
      · unfold chatMessageHandler
        rw [hteam]
        simp [hne]
      · simp only []
      · unfold chatMessageHandler
        rw [hteam]
        simp [hne]
      · unfold chatMessageHandler
        rw [hteam]
        simp [hne]

/-- Witness for `chat_spec`: team "Alpha" posts "  hi  " and the trimmed
message is broadcast and buffered; whitespace-only text is silently ignored. -/
theorem chat_spec_witness :
    (∃ m, (chatMessageHandler demoSetup [] "s1" "  hi  " "m1" 0).2.2 = some m
      ∧ m.message = (jsTrim "  hi  ").take 200
      ∧ (chatMessageHandler demoSetup [] "s1" "  hi  " "m1" 0).2.1 = none
      ∧ (chatMessageHandler demoSetup [] "s1" "  hi  " "m1" 0).1
          = (if 100 < ([] : List ChatMsg).length + 1
             then (([] : List ChatMsg) ++ [m]).tail else ([] : List ChatMsg) ++ [m]))
    ∧ chatMessageHandler demoSetup [] "s1" "   " "m1" 0 = ([], none, none) :=
  ⟨(chat_spec demoSetup [] "s1" "  hi  " "m1" 0).2.2 (by decide) (by decide),
   (chat_spec demoSetup [] "s1" "   " "m1" 0).2.1 (by decide) (by decide)⟩

end PlayoffDraft
